import Mathlib

/- Shallow embedding of the AiiDA profile-resolution module
   (aiida/common/profile.py) and of the NWChem TCOD translator
   (aiida/tools/dbexporters/tcod_plugins/nwcpymatgen.py), with theorems
   checking the natural-language specification against the code. -/

namespace AiidaProfile

/-- Exceptions of aiida.common.exceptions that the profile module raises,
together with Python's built-in KeyError as raised by a plain dict
subscription. -/
inductive AiidaError where
  | missingConfiguration (msg : String)
  | profileConfiguration (msg : String)
  | configuration (msg : String)
  | keyError (key : String)
deriving DecidableEq, Repr

/-- A Python dict with string keys and string values, modelled as an
association list; a genuine Python dict has pairwise-distinct keys. -/
abbrev PyDict := List (String × String)

/-- Embeds Python dict subscription `d[key]`: the stored value when the key is
present, a KeyError carrying the key when it is absent. -/
def dictGetItem (d : PyDict) (key : String) : Except AiidaError String :=
  match d.lookup key with
  | some v => Except.ok v
  | none => Except.error (AiidaError.keyError key)

/-- Modelled from the spec: `setup.AIIDA_CONFIG_FOLDER`, the fixed
configuration directory constant (defined outside the excerpt); the spec
writes it as `<config_dir>`, and its concrete value is immaterial here. -/
def CONFIG_DIR : String := "<config_dir>"

/-- The module constant `DAEMON_DIR`. -/
def DAEMON_DIR : String := "daemon"

/-- The module constant `DAEMON_LOG_DIR`. -/
def DAEMON_LOG_DIR : String := "daemon/log"

/-- Embeds `os.path.join` for the joins performed in this module: every
component after the first is a non-empty relative path and the first does not
end in a separator, so the join inserts exactly one separator. -/
def ospath_join (a b : String) : String := a ++ "/" ++ b

/-- Embeds `CIRCUS_PID_FILE_TEMPLATE.format(name)`, the template being
`os.path.join(CONFIG_DIR, DAEMON_DIR, 'circus-` followed by the placeholder
and `.pid')`. -/
def CIRCUS_PID_FILE_TEMPLATE (name : String) : String :=
  ospath_join (ospath_join CONFIG_DIR DAEMON_DIR) ("circus-" ++ name ++ ".pid")

/-- Embeds `DAEMON_PID_FILE_TEMPLATE.format(name)` (daemon pid file
`aiida-<name>.pid` under the daemon directory). -/
def DAEMON_PID_FILE_TEMPLATE (name : String) : String :=
  ospath_join (ospath_join CONFIG_DIR DAEMON_DIR) ("aiida-" ++ name ++ ".pid")

/-- Embeds `CIRCUS_LOG_FILE_TEMPLATE.format(name)`. -/
def CIRCUS_LOG_FILE_TEMPLATE (name : String) : String :=
  ospath_join (ospath_join CONFIG_DIR DAEMON_LOG_DIR) ("circus-" ++ name ++ ".log")

/-- Embeds `DAEMON_LOG_FILE_TEMPLATE.format(name)`. -/
def DAEMON_LOG_FILE_TEMPLATE (name : String) : String :=
  ospath_join (ospath_join CONFIG_DIR DAEMON_LOG_DIR) ("aiida-" ++ name ++ ".log")

/-- Embeds `CIRCUS_PORT_FILE_TEMPLATE.format(name)`. -/
def CIRCUS_PORT_FILE_TEMPLATE (name : String) : String :=
  ospath_join (ospath_join CONFIG_DIR DAEMON_DIR) ("circus-" ++ name ++ ".port")

/-- Embeds `CIRCUS_SOCKET_FILE_TEMPATE.format(name)` (sic, the source misspells
the constant's name). -/
def CIRCUS_SOCKET_FILE_TEMPATE (name : String) : String :=
  ospath_join (ospath_join CONFIG_DIR DAEMON_DIR) ("circus-" ++ name ++ ".sockets")

/-- The fixed controller socket filename. -/
def CIRCUS_CONTROLLER_SOCKET_TEMPLATE : String := "circus.c.sock"

/-- The fixed pubsub socket filename. -/
def CIRCUS_PUBSUB_SOCKET_TEMPLATE : String := "circus.p.sock"

/-- The fixed stats socket filename. -/
def CIRCUS_STATS_SOCKET_TEMPLATE : String := "circus.s.sock"

/-- Modelled from the spec: the process-wide state read by
`get_current_profile_name`, namely `settings.AIIDADB_PROFILE` ("an external
process-wide string variable", `None` until assigned) and the value the
external loader `setup.get_default_profile_name()` returns (the configuration
store's designated default profile name). -/
structure ProcessState where
  AIIDADB_PROFILE : Option String
  default_profile_name : String
deriving DecidableEq, Repr

/-- Embeds `get_current_profile_name`, which evaluates
`settings.AIIDADB_PROFILE or setup.get_default_profile_name()`: Python's `or`
falls through to the right operand both when the left is `None` and when it is
the empty string (both falsy). -/
def get_current_profile_name (st : ProcessState) : String :=
  match st.AIIDADB_PROFILE with
  | some s => if s = "" then st.default_profile_name else s
  | none => st.default_profile_name

/-- The loaded configuration store: its `profiles` table maps profile names to
profile configuration dicts.  Per the spec the store always yields a mapping
with a `profiles` key, so the table is a plain field. -/
structure Config where
  profiles : List (String × PyDict)
deriving DecidableEq, Repr

/-- Embeds `get_profile_config(name)`.  The external loader
`setup.get_config()` is passed in by its outcome `loaded` (modelled from the
spec: the loader is an external collaborator): `Except.error e` when the
loader raises `e`, `Except.ok config` when it returns the store.  A raised
MissingConfigurationError is caught and re-raised with the fixed clarifying
message; a failed lookup in the profiles table is caught and re-raised as
ProfileConfigurationError naming the offending profile name. -/
def get_profile_config (st : ProcessState) (loaded : Except AiidaError Config)
    (name : Option String) : Except AiidaError PyDict :=
  let n := name.getD (get_current_profile_name st)
  match loaded with
  | Except.error (AiidaError.missingConfiguration _) =>
      Except.error (AiidaError.missingConfiguration "could not load the configuration file")
  | Except.error e => Except.error e
  | Except.ok config =>
      match config.profiles.lookup n with
      | some profile => Except.ok profile
      | none =>
          Except.error (AiidaError.profileConfiguration
            ("invalid profile name \"" ++ n ++ "\""))

/-- Embeds Python `s.startswith(pre)`: true exactly when `pre`'s character
sequence is a prefix of `s`'s. -/
def pyStartswith (s pre : String) : Bool := pre.data.isPrefixOf s.data

/-- The `Profile` class state: `__init__` stores the given name, the
configuration dict (wrapped in AttributeDict by the source, which changes only
the access syntax, not the mapping) and the precomputed test flag. -/
structure Profile where
  _name : String
  _config : PyDict
  _test_profile : Bool
deriving DecidableEq, Repr

/-- Embeds `Profile.__init__(name, config)`: a total constructor with no
failure path; the test flag is `bool(name.startswith('test_'))`, computed once
here. -/
def Profile.init (name : String) (config : PyDict) : Profile :=
  { _name := name, _config := config, _test_profile := pyStartswith name "test_" }

/-- Embeds `get_profile(name)`: resolves the name (defaulting to the current
profile name), fetches that profile's configuration and wraps it in a Profile
instance. -/
def get_profile (st : ProcessState) (loaded : Except AiidaError Config)
    (name : Option String) : Except AiidaError Profile :=
  let n := name.getD (get_current_profile_name st)
  match get_profile_config st loaded (some n) with
  | Except.ok config => Except.ok (Profile.init n config)
  | Except.error e => Except.error e

/-- The `name` property: returns the stored `_name`; there is no setter. -/
def Profile.name (p : Profile) : String := p._name

/-- The `config` property: returns the stored `_config`. -/
def Profile.config (p : Profile) : PyDict := p._config

/-- Modelled from the spec: `setup.PROFILE_UUID_KEY`, the fixed key under
which a profile's UUID is stored (the constant is defined outside the excerpt;
its concrete value is immaterial to the claims). -/
def PROFILE_UUID_KEY : String := "PROFILE_UUID"

/-- The `uuid` property: a bare dict subscription
`self.config[setup.PROFILE_UUID_KEY]` with no exception handler. -/
def Profile.uuid (p : Profile) : Except AiidaError String :=
  dictGetItem p._config PROFILE_UUID_KEY

/-- The `rmq_prefix` property: `self._RMQ_PREFIX.format(uuid=self.uuid)`,
where `_RMQ_PREFIX` is the literal template `aiida-{uuid}`, so the format call
produces `aiida-` followed by the uuid. -/
def Profile.rmq_prefix (p : Profile) : Except AiidaError String :=
  match Profile.uuid p with
  | Except.ok u => Except.ok ("aiida-" ++ u)
  | Except.error e => Except.error e

/-- The `is_test_profile` property: returns the flag stored at construction. -/
def Profile.is_test_profile (p : Profile) : Bool := p._test_profile

/-- Modelled from the spec: `setup.DEFAULT_USER_CONFIG_FIELD`, the designated
default-user-email key (the constant is defined outside the excerpt). -/
def DEFAULT_USER_CONFIG_FIELD : String := "default_user_email"

/-- The `default_user_email` property: the dict subscription
`self.config[DEFAULT_USER_CONFIG_FIELD]` with a KeyError handler that
re-raises ConfigurationError with a message naming the missing key. -/
def Profile.default_user_email (p : Profile) : Except AiidaError String :=
  match dictGetItem p._config DEFAULT_USER_CONFIG_FIELD with
  | Except.ok email => Except.ok email
  | Except.error (AiidaError.keyError _) =>
      Except.error (AiidaError.configuration
        ("No \x27" ++ DEFAULT_USER_CONFIG_FIELD ++ "\x27 key found in the AiiDA configuration file"))
  | Except.error e => Except.error e

/-- The nested `socket` group of the circus filepaths. -/
structure CircusSocketPaths where
  file : String
  controller : String
  pubsub : String
  stats : String
deriving DecidableEq, Repr

/-- The `circus` group of the filepaths dictionary. -/
structure CircusPaths where
  log : String
  pid : String
  port : String
  socket : CircusSocketPaths
deriving DecidableEq, Repr

/-- The `daemon` group of the filepaths dictionary. -/
structure DaemonPaths where
  log : String
  pid : String
deriving DecidableEq, Repr

/-- The nested dictionary returned by the `filepaths` property. -/
structure Filepaths where
  circus : CircusPaths
  daemon : DaemonPaths
deriving DecidableEq, Repr

/-- The `filepaths` property: builds the nested path dictionary afresh on each
access by substituting the profile name into the module templates; it performs
no filesystem access. -/
def Profile.filepaths (p : Profile) : Filepaths :=
  { circus :=
      { log := CIRCUS_LOG_FILE_TEMPLATE (Profile.name p)
        pid := CIRCUS_PID_FILE_TEMPLATE (Profile.name p)
        port := CIRCUS_PORT_FILE_TEMPLATE (Profile.name p)
        socket :=
          { file := CIRCUS_SOCKET_FILE_TEMPATE (Profile.name p)
            controller := CIRCUS_CONTROLLER_SOCKET_TEMPLATE
            pubsub := CIRCUS_PUBSUB_SOCKET_TEMPLATE
            stats := CIRCUS_STATS_SOCKET_TEMPLATE } }
    daemon :=
      { log := DAEMON_LOG_FILE_TEMPLATE (Profile.name p)
        pid := DAEMON_PID_FILE_TEMPLATE (Profile.name p) } }

/-- C1, as stated, is false: with the process-wide override assigned the empty
string (a set, but falsy, value) and default profile name `default`, resolving
returns `default`, not the override value `""`. -/
theorem C1_counterexample :
    ProcessState.AIIDADB_PROFILE ⟨some "", "default"⟩ = some "" ∧
    get_current_profile_name ⟨some "", "default"⟩ ≠ "" := by
  refine ⟨rfl, ?_⟩
  decide

/-- C1 (amended): resolving the current profile name returns the process-wide
override whenever it is set to a non-empty string, and otherwise (override
unset, or set to the empty string, which Python's `or` treats as falsy)
returns the configuration store's designated default profile name. -/
theorem C1_resolve_current_profile_name (st : ProcessState) :
    (∀ s, st.AIIDADB_PROFILE = some s → s ≠ "" → get_current_profile_name st = s) ∧
    ((st.AIIDADB_PROFILE = none ∨ st.AIIDADB_PROFILE = some "") →
      get_current_profile_name st = st.default_profile_name) := by
  constructor
  · intro s hs hne
    simp [get_current_profile_name, hs, hne]
  · rintro (h | h) <;> simp [get_current_profile_name, h]

/-- C1 (witness): a non-empty override wins; an unset override yields the
default. -/
theorem C1_witness :
    get_current_profile_name ⟨some "proj", "default"⟩ = "proj" ∧
    get_current_profile_name ⟨none, "default"⟩ = "default" :=
  ⟨(C1_resolve_current_profile_name ⟨some "proj", "default"⟩).1 "proj" rfl (by decide),
   (C1_resolve_current_profile_name ⟨none, "default"⟩).2 (Or.inl rfl)⟩

/-- C2: requesting a profile name absent from the loaded store's profiles
table makes `get_profile_config` (and hence `get_profile`) fail with
ProfileConfigurationError, and the error message contains the offending
name. -/
theorem C2_missing_profile_name (st : ProcessState) (config : Config) (name : String)
    (h : config.profiles.lookup name = none) :
    get_profile_config st (Except.ok config) (some name) =
      Except.error (AiidaError.profileConfiguration
        ("invalid profile name \"" ++ name ++ "\"")) ∧
    get_profile st (Except.ok config) (some name) =
      Except.error (AiidaError.profileConfiguration
        ("invalid profile name \"" ++ name ++ "\"")) ∧
    ∃ pre post, "invalid profile name \"" ++ name ++ "\"" = pre ++ name ++ post := by
  refine ⟨?_, ?_, "invalid profile name \"", "\"", ?_⟩
  · simp [get_profile_config, h]
  · simp [get_profile, get_profile_config, h]
  · rw [String.append_assoc]

/-- C2 (witness): requesting `nonexistent` from a store holding only a
`default` profile fails with the expected error. -/
theorem C2_witness :
    get_profile_config ⟨none, "default"⟩ (Except.ok ⟨[("default", [])]⟩) (some "nonexistent") =
      Except.error (AiidaError.profileConfiguration
        ("invalid profile name \"" ++ "nonexistent" ++ "\"")) :=
  (C2_missing_profile_name ⟨none, "default"⟩ ⟨[("default", [])]⟩ "nonexistent" rfl).1

/-- C3: when the external loader fails with MissingConfigurationError,
`get_profile_config` re-raises MissingConfigurationError with exactly the
clarifying message, for every original loader message and every requested
name. -/
theorem C3_missing_configuration (st : ProcessState) (m : String) (name : Option String) :
    get_profile_config st (Except.error (AiidaError.missingConfiguration m)) name =
      Except.error (AiidaError.missingConfiguration "could not load the configuration file") := by
  cases name <;> rfl

/-- C4: for every profile name present in the loaded store, `get_profile`
succeeds and the returned Profile's `name` property equals the requested name;
the name a construction stores is exactly the constructor argument, and the
embedding has no operation that alters it. -/
theorem C4_get_profile_name (st : ProcessState) (config : Config) (name : String)
    (pc : PyDict) (h : config.profiles.lookup name = some pc) :
    (∃ p, get_profile st (Except.ok config) (some name) = Except.ok p ∧
      Profile.name p = name) ∧
    ∀ c, Profile.name (Profile.init name c) = name := by
  refine ⟨⟨Profile.init name pc, ?_, rfl⟩, fun c => rfl⟩
  simp [get_profile, get_profile_config, h]

/-- C4 (witness): fetching the `default` profile from a one-profile store
returns a profile named `default`. -/
theorem C4_witness :
    ∃ p, get_profile ⟨none, "default"⟩ (Except.ok ⟨[("default", [])]⟩) (some "default") =
      Except.ok p ∧ Profile.name p = "default" :=
  (C4_get_profile_name ⟨none, "default"⟩ ⟨[("default", [])]⟩ "default" [] rfl).1

/-- C5: the filepaths dictionary is a pure function of the profile name (two
profiles with the same name, whatever their configurations, get identical
filepaths, and the computation touches no state), and its daemon pid entry is
the daemon-pid template with the name substituted. -/
theorem C5_filepaths_daemon_pid (p : Profile) :
    (Profile.filepaths p).daemon.pid =
      CONFIG_DIR ++ "/daemon/aiida-" ++ Profile.name p ++ ".pid" ∧
    ∀ q : Profile, Profile.name q = Profile.name p →
      Profile.filepaths q = Profile.filepaths p := by
  constructor
  · show ospath_join (ospath_join CONFIG_DIR DAEMON_DIR)
        ("aiida-" ++ Profile.name p ++ ".pid") = _
    simp only [ospath_join, CONFIG_DIR, DAEMON_DIR, String.append_assoc]
    rfl
  · intro q hq
    simp [Profile.filepaths, hq]

/-- C5 (witness): a profile named `demo` has the expected daemon pid path, and
its filepaths coincide with those of a differently-configured profile of the
same name. -/
theorem C5_witness :
    (Profile.filepaths (Profile.init "demo" [])).daemon.pid =
      CONFIG_DIR ++ "/daemon/aiida-" ++ "demo" ++ ".pid" ∧
    Profile.filepaths (Profile.init "demo" [("k", "v")]) =
      Profile.filepaths (Profile.init "demo" []) :=
  ⟨(C5_filepaths_daemon_pid (Profile.init "demo" [])).1,
   (C5_filepaths_daemon_pid (Profile.init "demo" [])).2 (Profile.init "demo" [("k", "v")]) rfl⟩

/-- C6: a profile's test flag is computed at construction as
`name.startswith('test_')` and equals true exactly when the name extends the
literal prefix `test_`; the property returns the stored flag unchanged. -/
theorem C6_is_test_profile (name : String) (config : PyDict) :
    Profile.is_test_profile (Profile.init name config) = pyStartswith name "test_" ∧
    (Profile.is_test_profile (Profile.init name config) = true ↔
      ∃ rest, name = "test_" ++ rest) := by
  refine ⟨rfl, ?_⟩
  show pyStartswith name "test_" = true ↔ _
  rw [pyStartswith, List.isPrefixOf_iff_prefix]
  constructor
  · rintro ⟨l, hl⟩
    exact ⟨⟨l⟩, String.ext (by rw [String.data_append, hl])⟩
  · rintro ⟨rest, rfl⟩
    rw [String.data_append]
    exact List.prefix_append _ _

/-- C7: for a profile whose configuration holds the UUID key with value `u`,
the `rmq_prefix` property yields `aiida-` concatenated with `u`. -/
theorem C7_rmq_prefix (p : Profile) (u : String)
    (h : List.lookup PROFILE_UUID_KEY (Profile.config p) = some u) :
    Profile.rmq_prefix p = Except.ok ("aiida-" ++ u) := by
  simp [Profile.rmq_prefix, Profile.uuid, dictGetItem, Profile.config] at h ⊢
  rw [h]

/-- C7 (witness): a profile storing UUID `abc` has RMQ prefix `aiida-abc`. -/
theorem C7_witness :
    Profile.rmq_prefix (Profile.init "x" [("PROFILE_UUID", "abc")]) =
      Except.ok ("aiida-" ++ "abc") :=
  C7_rmq_prefix (Profile.init "x" [("PROFILE_UUID", "abc")]) "abc" rfl

/-- C8: construction never fails (a profile built over a configuration lacking
the email key still carries its name); accessing `default_user_email` on such
a profile fails with ConfigurationError whose message names the missing key,
while a present key's value is returned as is. -/
theorem C8_default_user_email (name : String) (config : PyDict) :
    (List.lookup DEFAULT_USER_CONFIG_FIELD config = none →
      ∃ msg, Profile.default_user_email (Profile.init name config) =
        Except.error (AiidaError.configuration msg) ∧
        ∃ pre post, msg = pre ++ DEFAULT_USER_CONFIG_FIELD ++ post) ∧
    (∀ v, List.lookup DEFAULT_USER_CONFIG_FIELD config = some v →
      Profile.default_user_email (Profile.init name config) = Except.ok v) ∧
    Profile.name (Profile.init name config) = name := by
  refine ⟨?_, ?_, rfl⟩
  · intro h
    refine ⟨"No \x27" ++ DEFAULT_USER_CONFIG_FIELD ++ "\x27 key found in the AiiDA configuration file",
      ?_, "No \x27", "\x27 key found in the AiiDA configuration file", rfl⟩
    simp [Profile.default_user_email, dictGetItem, Profile.init, h]
  · intro v h
    simp [Profile.default_user_email, dictGetItem, Profile.init, h]

/-- C8 (witness): with the email key absent the access fails with a
ConfigurationError naming the key; with it present the stored address is
returned; construction succeeds in both cases. -/
theorem C8_witness :
    (∃ msg, Profile.default_user_email (Profile.init "x" []) =
      Except.error (AiidaError.configuration msg) ∧
      ∃ pre post, msg = pre ++ DEFAULT_USER_CONFIG_FIELD ++ post) ∧
    Profile.default_user_email (Profile.init "x" [("default_user_email", "a@b.c")]) =
      Except.ok "a@b.c" :=
  ⟨(C8_default_user_email "x" []).1 rfl,
   (C8_default_user_email "x" [("default_user_email", "a@b.c")]).2.1 "a@b.c" rfl⟩

/-- C9: on a configuration lacking the UUID key, the `uuid` property surfaces
the raw missing-key failure (Python's KeyError carrying the key), and in
particular not a ConfigurationError nor any other wrapped configuration
exception — asymmetric with `default_user_email`. -/
theorem C9_uuid_unwrapped (p : Profile)
    (h : List.lookup PROFILE_UUID_KEY (Profile.config p) = none) :
    Profile.uuid p = Except.error (AiidaError.keyError PROFILE_UUID_KEY) ∧
    (∀ msg, Profile.uuid p ≠ Except.error (AiidaError.configuration msg)) ∧
    (∀ msg, Profile.uuid p ≠ Except.error (AiidaError.missingConfiguration msg)) ∧
    (∀ msg, Profile.uuid p ≠ Except.error (AiidaError.profileConfiguration msg)) := by
  have h' : List.lookup PROFILE_UUID_KEY p._config = none := h
  have hu : Profile.uuid p = Except.error (AiidaError.keyError PROFILE_UUID_KEY) := by
    simp [Profile.uuid, dictGetItem, h']
  refine ⟨hu, ?_, ?_, ?_⟩ <;> intro msg <;> rw [hu] <;> simp

/-- C9 (witness): a profile with an empty configuration raises the bare
KeyError from `uuid`. -/
theorem C9_witness :
    Profile.uuid (Profile.init "x" []) =
      Except.error (AiidaError.keyError PROFILE_UUID_KEY) :=
  (C9_uuid_unwrapped (Profile.init "x" []) rfl).1

end AiidaProfile

namespace Nwcpymatgen

/-- One entry of the `basis_set` sub-mapping of an NWChem output-parameter
dictionary, as far as the translator reads it: its `description` and `types`
values. -/
structure BasisEntry where
  description : String
  types : List String
deriving DecidableEq, Repr

/-- The output-parameter dictionary of a calculation
(`calc.out.output.get_dict()`), as far as the translator reads it: the
optional `basis_set` sub-mapping from atom-type symbol to its entry.  A
Python dict, so a genuine value has pairwise-distinct keys. -/
structure OutputDict where
  basis_set : Option (List (String × BasisEntry))
deriving DecidableEq, Repr

/-- Lexicographic (code-point) comparison of character lists: the order
Python's `sorted` uses on strings. -/
def charListLe : List Char → List Char → Bool
  | [], _ => true
  | _ :: _, [] => false
  | a :: as, b :: bs => if a < b then true else if b < a then false else charListLe as bs

/-- Embeds Python `sorted` on a list of strings: a stable merge sort by
code-point order (CPython's `sorted` is itself a merge sort). -/
def pySorted (l : List String) : List String :=
  l.mergeSort (fun a b => charListLe a.data b.data)

/-- Embeds `get_atom_type_symbol`: `None` when the output dictionary has no
`basis_set` key, otherwise `sorted(dictionary['basis_set'].keys())`. -/
def get_atom_type_symbol (d : OutputDict) : Option (List String) :=
  match d.basis_set with
  | none => none
  | some bs => some (pySorted (bs.map Prod.fst))

/-- Embeds `get_atom_type_basisset`: `None` when there is no `basis_set` key,
otherwise the comprehension over `get_atom_type_symbol`'s list (which, when
`basis_set` is present, is exactly the sorted key list inlined here) that
subscripts the `basis_set` dict at each symbol and takes `description`; the
element-level dict subscription is kept partial, a lookup that can miss. -/
def get_atom_type_basisset (d : OutputDict) : Option (List (Option String)) :=
  match d.basis_set with
  | none => none
  | some bs =>
      some ((pySorted (bs.map Prod.fst)).map
        fun x => (bs.lookup x).map BasisEntry.description)

/-- Embeds `get_atom_type_valence_configuration`: same shape as
`get_atom_type_basisset`, reading each entry's `types` value. -/
def get_atom_type_valence_configuration (d : OutputDict) : Option (List (Option (List String))) :=
  match d.basis_set with
  | none => none
  | some bs =>
      some ((pySorted (bs.map Prod.fst)).map
        fun x => (bs.lookup x).map BasisEntry.types)

/-- Totality of the code-point comparison. -/
theorem charListLe_total (a b : List Char) : (charListLe a b || charListLe b a) = true := by
  induction a generalizing b with
  | nil => simp [charListLe]
  | cons x xs ih =>
    cases b with
    | nil => simp [charListLe]
    | cons y ys =>
      by_cases hxy : x < y
      · simp [charListLe, hxy]
      · by_cases hyx : y < x
        · simp [charListLe, hxy, hyx]
        · simp only [charListLe, if_neg hxy, if_neg hyx]
          exact ih ys

/-- Transitivity of the code-point comparison. -/
theorem charListLe_trans (a b c : List Char) (hab : charListLe a b = true)
    (hbc : charListLe b c = true) : charListLe a c = true := by
  induction a generalizing b c with
  | nil => simp [charListLe]
  | cons x xs ih =>
    cases b with
    | nil => simp [charListLe] at hab
    | cons y ys =>
      cases c with
      | nil => simp [charListLe] at hbc
      | cons z zs =>
        simp only [charListLe] at hab hbc ⊢
        by_cases hxy : x < y
        · by_cases hyz : y < z
          · simp [lt_trans hxy hyz]
          · by_cases hzy : z < y
            · simp [if_neg hyz, if_pos hzy] at hbc
            · have hyzeq : y = z := le_antisymm (not_lt.1 hzy) (not_lt.1 hyz)
              subst hyzeq
              simp [hxy]
        · by_cases hyx : y < x
          · simp [if_neg hxy, if_pos hyx] at hab
          · have hxyeq : x = y := le_antisymm (not_lt.1 hyx) (not_lt.1 hxy)
            subst hxyeq
            simp only [if_neg hxy, if_neg hyx] at hab
            by_cases hxz : x < z
            · simp [hxz]
            · by_cases hzx : z < x
              · simp [if_neg hxz, if_pos hzx] at hbc
              · simp only [if_neg hxz, if_neg hzx] at hbc ⊢
                exact ih ys zs hab hbc

/-- A key occurring in an association list's key list can be looked up. -/
theorem lookup_of_mem_keys {β : Type} (l : List (String × β)) (x : String)
    (hx : x ∈ l.map Prod.fst) : ∃ e, l.lookup x = some e := by
  induction l with
  | nil => simp at hx
  | cons p t ih =>
    obtain ⟨k, v⟩ := p
    rw [List.map_cons] at hx
    by_cases hxk : x = k
    · subst hxk
      exact ⟨v, by simp [List.lookup]⟩
    · have hx' : x ∈ t.map Prod.fst := by
        rcases List.mem_cons.1 hx with h | h
        · exact absurd h hxk
        · exact h
      obtain ⟨e, he⟩ := ih hx'
      exact ⟨e, by simp [List.lookup, beq_eq_false_iff_ne.mpr hxk, he]⟩

/-- The sorted key list is a permutation of the key list. -/
theorem pySorted_perm (l : List String) : (pySorted l).Perm l :=
  List.mergeSort_perm l _

/-- The sorted key list is sorted by code-point order. -/
theorem pySorted_sorted (l : List String) :
    List.Sorted (fun a b => charListLe a.data b.data = true) (pySorted l) :=
  List.sorted_mergeSort
    (fun a b c hab hbc => charListLe_trans a.data b.data c.data hab hbc)
    (fun a b => charListLe_total a.data b.data) l

/-- C10: when the output dictionary lacks `basis_set`, all three translator
queries return `None`; when it holds a `basis_set` mapping (distinct keys, as
in any Python dict), `get_atom_type_symbol` returns the sorted duplicate-free
list of its keys, and `get_atom_type_basisset` and
`get_atom_type_valence_configuration` return lists of the same length whose
i-th elements are the `description` and `types` values of the i-th symbol's
sub-mapping. -/
theorem C10_atom_type_lists (d : OutputDict) :
    (d.basis_set = none →
      get_atom_type_symbol d = none ∧ get_atom_type_basisset d = none ∧
      get_atom_type_valence_configuration d = none) ∧
    (∀ bs, d.basis_set = some bs → (bs.map Prod.fst).Nodup →
      ∃ syms, get_atom_type_symbol d = some syms ∧
        List.Sorted (fun a b => charListLe a.data b.data = true) syms ∧
        syms.Nodup ∧ (∀ x, x ∈ syms ↔ x ∈ bs.map Prod.fst) ∧
        ∃ lb, get_atom_type_basisset d = some lb ∧
        ∃ lv, get_atom_type_valence_configuration d = some lv ∧
          lb.length = syms.length ∧ lv.length = syms.length ∧
          ∀ (i : Nat) (x : String), syms[i]? = some x →
            ∃ e, bs.lookup x = some e ∧
              lb[i]? = some (some (BasisEntry.description e)) ∧
              lv[i]? = some (some (BasisEntry.types e))) := by
  constructor
  · intro h
    refine ⟨?_, ?_, ?_⟩ <;>
      simp [get_atom_type_symbol, get_atom_type_basisset,
        get_atom_type_valence_configuration, h]
  · intro bs h hnd
    have hperm := pySorted_perm (bs.map Prod.fst)
    refine ⟨pySorted (bs.map Prod.fst), by simp [get_atom_type_symbol, h],
      pySorted_sorted (bs.map Prod.fst), hperm.nodup_iff.mpr hnd,
      fun x => hperm.mem_iff,
      (pySorted (bs.map Prod.fst)).map (fun x => (bs.lookup x).map BasisEntry.description),
      by simp [get_atom_type_basisset, h],
      (pySorted (bs.map Prod.fst)).map (fun x => (bs.lookup x).map BasisEntry.types),
      by simp [get_atom_type_valence_configuration, h],
      List.length_map _ _, List.length_map _ _, ?_⟩
    intro i x hix
    have hmem : x ∈ pySorted (bs.map Prod.fst) := by
      obtain ⟨hlt, hget⟩ := List.getElem?_eq_some_iff.1 hix
      exact hget ▸ List.getElem_mem hlt
    obtain ⟨e, he⟩ := lookup_of_mem_keys bs x (hperm.mem_iff.1 hmem)
    refine ⟨e, he, ?_, ?_⟩
    · rw [List.getElem?_map, hix]
      simp [he]
    · rw [List.getElem?_map, hix]
      simp [he]

/-- C10 (witness): a concrete two-element basis set, with keys deliberately
given out of order, is sorted, deduplicated and aligned as claimed. -/
theorem C10_witness :
    ∃ syms,
      get_atom_type_symbol
        ⟨some [("O", ⟨"odesc", ["s", "p"]⟩), ("H", ⟨"hdesc", ["s"]⟩)]⟩ = some syms ∧
      List.Sorted (fun a b => charListLe a.data b.data = true) syms ∧
      syms.Nodup ∧
      (∀ x, x ∈ syms ↔
        x ∈ ([("O", (⟨"odesc", ["s", "p"]⟩ : BasisEntry)), ("H", ⟨"hdesc", ["s"]⟩)].map Prod.fst)) ∧
      ∃ lb, get_atom_type_basisset
        ⟨some [("O", ⟨"odesc", ["s", "p"]⟩), ("H", ⟨"hdesc", ["s"]⟩)]⟩ = some lb ∧
      ∃ lv, get_atom_type_valence_configuration
        ⟨some [("O", ⟨"odesc", ["s", "p"]⟩), ("H", ⟨"hdesc", ["s"]⟩)]⟩ = some lv ∧
        lb.length = syms.length ∧ lv.length = syms.length ∧
        ∀ (i : Nat) (x : String), syms[i]? = some x →
          ∃ e, [("O", (⟨"odesc", ["s", "p"]⟩ : BasisEntry)), ("H", ⟨"hdesc", ["s"]⟩)].lookup x = some e ∧
            lb[i]? = some (some (BasisEntry.description e)) ∧
            lv[i]? = some (some (BasisEntry.types e)) :=
  (C10_atom_type_lists ⟨some [("O", ⟨"odesc", ["s", "p"]⟩), ("H", ⟨"hdesc", ["s"]⟩)]⟩).2
    [("O", ⟨"odesc", ["s", "p"]⟩), ("H", ⟨"hdesc", ["s"]⟩)] rfl (by decide)

end Nwcpymatgen
